import Mathlib

/-!
Shallow embedding of the client-side prepared-statement engine in
src/ClientSidePreparedStatement.cpp.

Parameter holders (`Shared::ParameterHolder`, a nullable shared pointer) are
modelled as `Option Nat`: `none` is the unbound slot, `some v` an opaque bound
value.  The Transport collaborator (`Protocol`) is modelled as an oracle
recording, per queued entry, whether its `executeQuery` call succeeds (`none`)
or raises an `SQLException` with a given message (`some msg`), together with
the results of `executeBatchClient` (the rewritten-batch attempt) and of
`stopIfInterrupted` (the cooperative interrupt flag).
-/

set_option autoImplicit false

namespace CSPS

/-- Immutable artifact of parsing the SQL text (`ClientPrepareResult`).
`id` stands for the identity of the heap object so that reference sharing
between a statement and its clones is observable. -/
structure ClientPrepareResult where
  id : Nat
  paramCount : Nat
deriving Repr, DecidableEq

/-- Parameter metadata as resolved by `loadParametersData`: either obtained
from an ephemeral server-side prepare, or the `SimpleParameterMetaData`
fallback that only reports the parameter count. -/
inductive ParamMeta where
  | fromServer (info : Nat)
  | simple (paramCount : Nat)
deriving Repr, DecidableEq

/-- The mutable state of one `ClientSidePreparedStatement`. -/
structure Stmt where
  sqlQuery : String
  prepareResult : ClientPrepareResult
  parameters : List (Option Nat)
  parameterList : List (List (Option Nat))
  hasLongData : Bool
  closed : Bool
  queryTimeout : Nat
  continueBatchOnError : Bool
  resultSetMetaData : Option Nat
  parameterMetaData : Option ParamMeta
deriving Repr, DecidableEq

/-- The Transport collaborator (`Protocol`), as an oracle: `outcomes` lists,
for each queued entry in order, the result of the per-entry `executeQuery`
call of the sequential fallback (`none` = success, `some msg` = throws an
`SQLException` with message `msg`). -/
structure Transport where
  rewriteHandled : Bool
  interrupted : Bool
  outcomes : List (Option String)
  updateCounts : List Int
  largeUpdateCounts : List Int
deriving Repr, DecidableEq

/-- Observable trace of one run of the sequential batch-fallback loop of
`executeInternalBatch`. -/
structure SeqOut where
  dispatched : Nat
  checks : Nat
  succeeded : Nat
  aborted : Option String
  captured : String
deriving Repr, DecidableEq

/-- Result of one `executeBatch` / `executeLargeBatch` call: either the
wrapped update counts, or the exception produced by
`executeBatchExceptionEpilogue(sqle, size)` — the detail message of the
wrapped failure together with the batch size it is annotated with. -/
inductive BatchResult where
  | counts (updateCounts : List Int)
  | raised (detail : String) (batchSize : Nat)
deriving Repr, DecidableEq

/-- Observable outcome of one `executeBatch` / `executeLargeBatch` call. -/
structure ExecuteBatchOut where
  lockAcquired : Bool
  ranInternalBatch : Bool
  dispatched : Nat
  checks : Nat
  completed : Nat
  epilogueRuns : Nat
  result : BatchResult
deriving Repr, DecidableEq

/-- `getParameterCount()`: `prepareResult->getParamCount()`. -/
def getParameterCount (s : Stmt) : Nat :=
  s.prepareResult.paramCount

/-- The in-range test of `setParameter`:
`parameterIndex >= 1 && parameterIndex < prepareResult->getParamCount() + 1`. -/
def setParameterCheck (s : Stmt) (parameterIndex : Nat) : Bool :=
  decide (1 ≤ parameterIndex) && decide (parameterIndex < s.prepareResult.paramCount + 1)

/-- `setParameter(parameterIndex, holder)`: on a passing range check, writes
`parameters[parameterIndex - 1]`; otherwise raises an InvalidParameterIndex
error.  The C++ write is an out-of-bounds access whenever the vector is
shorter than `parameterIndex`; `List.set` models only the in-bounds case,
and the out-of-bounds situation is stated explicitly in the theorems. -/
def setParameter (s : Stmt) (parameterIndex : Nat) (holder : Nat) : Except String Stmt :=
  if setParameterCheck s parameterIndex then
    Except.ok { s with parameters := s.parameters.set (parameterIndex - 1) (some holder) }
  else
    Except.error ("Could not set parameter at position " ++ toString parameterIndex)

/-- `clearParameters()`: `parameters.clear()` followed by
`parameters.assign(paramCount, Shared::ParameterHolder())`. -/
def clearParameters (s : Stmt) : Stmt :=
  { s with parameters := List.replicate s.prepareResult.paramCount none }

/-- `addBatch()`: copies `parameters[i]` into a fresh holder vector of length
`paramCount`, throwing as soon as an unbound slot is found; only after the
loop does `parameterList.push_back(holder)` run.  Returned as
(raised error, statement state afterwards). -/
def addBatch (s : Stmt) : Option String × Stmt :=
  let n := s.prepareResult.paramCount
  let holder : List (Option Nat) := (List.range n).map (fun i => (s.parameters[i]?).getD none)
  if holder.all (fun h => h.isSome) then
    (none, { s with parameterList := s.parameterList ++ [holder] })
  else
    (some ("You need to set exactly " ++ toString n
      ++ " parameters on the prepared statement"), s)

/-- `clearBatch()`: `parameterList.clear(); hasLongData= false;
this->parameters.clear();`.  `std::vector::clear` empties the vector (its
size becomes 0; only the capacity is retained). -/
def clearBatch (s : Stmt) : Stmt :=
  { s with parameterList := [], hasLongData := false, parameters := [] }

/-- `clone(connection)`: built by the private constructor (which leaves the
parameter vector empty), then shares `prepareResult` (a `shared_ptr` copy of
the same parse object), copies the metadata pointers, and only calls
`parameters.reserve(paramCount)` — `reserve` does not change the vector's
size, so the clone's parameter vector stays at length 0. -/
def clone (s : Stmt) : Stmt :=
  { sqlQuery := s.sqlQuery
    prepareResult := s.prepareResult
    parameters := []
    parameterList := []
    hasLongData := false
    closed := false
    queryTimeout := 0
    continueBatchOnError := s.continueBatchOnError
    resultSetMetaData := s.resultSetMetaData
    parameterMetaData := s.parameterMetaData }

/-- One run of the per-entry loop of the sequential batch fallback in
`executeInternalBatch`, over the Transport outcomes of the queued entries.
`checkCancel` is true in the `queryTimeout > 0` branch, where
`protocol->stopIfInterrupted()` runs before each entry; the `queryTimeout`
= 0 branch has no such call.  `captured` is the local
`SQLException exception("")` used as a no-failure sentinel: under
continue-on-error each caught failure overwrites it. -/
def seqLoop (checkCancel interrupted continueOnError : Bool) (captured : String) :
    List (Option String) → SeqOut
  | [] =>
    { dispatched := 0, checks := 0, succeeded := 0, aborted := none, captured := captured }
  | o :: rest =>
    if checkCancel && interrupted then
      { dispatched := 0, checks := 1, succeeded := 0,
        aborted := some "interrupted", captured := captured }
    else
      let c : Nat := if checkCancel then 1 else 0
      match o with
      | none =>
        let r := seqLoop checkCancel interrupted continueOnError captured rest
        { r with dispatched := r.dispatched + 1, checks := r.checks + c,
                 succeeded := r.succeeded + 1 }
      | some msg =>
        if continueOnError then
          let r := seqLoop checkCancel interrupted continueOnError msg rest
          { r with dispatched := r.dispatched + 1, checks := r.checks + c }
        else
          { dispatched := 1, checks := c, succeeded := 0,
            aborted := some msg, captured := captured }

/-- Message of the last failing entry of an outcome list (specification
vocabulary used to describe what the sentinel-overwrite loop captures). -/
def lastFailureMsg : List (Option String) → Option String
  | [] => none
  | none :: rest => lastFailureMsg rest
  | some m :: rest => some ((lastFailureMsg rest).getD m)

/-- `executeInternalBatch(size)`: first tries the rewritten-batch path
(`protocol->executeBatchClient`); if the transport handled it, returns.
Otherwise runs the sequential fallback and, after the loop, throws the
captured sentinel exception iff its message is non-empty.  The second
component is the exception propagated out of the function, if any. -/
def executeInternalBatch (t : Transport) (queryTimeout : Nat) (continueOnError : Bool) :
    SeqOut × Option String :=
  if t.rewriteHandled then
    ({ dispatched := 0, checks := 0, succeeded := 0, aborted := none, captured := "" }, none)
  else
    let r := seqLoop (decide (0 < queryTimeout)) t.interrupted continueOnError "" t.outcomes
    match r.aborted with
    | some m => (r, some m)
    | none => (r, if r.captured = "" then none else some r.captured)

/-- `executeBatch()`: `checkClose`; on an empty queue return `wrap(nullptr,0)`
(no lock, no Transport call); otherwise take the channel lock and run
`executeInternalBatch` inside a try block whose success path returns from
within the try — the `executeBatchEpilogue()` statement placed after the
try/catch is therefore unreachable, so `epilogueRuns` counts only the call
made in the catch block before `executeBatchExceptionEpilogue(sqle, size)`
is thrown. -/
def executeBatch (s : Stmt) (t : Transport) : ExecuteBatchOut :=
  if s.closed then
    { lockAcquired := false, ranInternalBatch := false, dispatched := 0, checks := 0,
      completed := 0, epilogueRuns := 0,
      result := BatchResult.raised "Cannot do an operation on a closed statement"
        s.parameterList.length }
  else if s.parameterList.length = 0 then
    { lockAcquired := false, ranInternalBatch := false, dispatched := 0, checks := 0,
      completed := 0, epilogueRuns := 0, result := BatchResult.counts [] }
  else
    match executeInternalBatch t s.queryTimeout s.continueBatchOnError with
    | (r, none) =>
      { lockAcquired := true, ranInternalBatch := true, dispatched := r.dispatched,
        checks := r.checks, completed := r.succeeded, epilogueRuns := 0,
        result := BatchResult.counts t.updateCounts }
    | (r, some m) =>
      { lockAcquired := true, ranInternalBatch := true, dispatched := r.dispatched,
        checks := r.checks, completed := r.succeeded, epilogueRuns := 1,
        result := BatchResult.raised m s.parameterList.length }

/-- `executeLargeBatch()`: identical control flow to `executeBatch`, returning
the 64-bit update counts; it has the same unreachable post-try epilogue. -/
def executeLargeBatch (s : Stmt) (t : Transport) : ExecuteBatchOut :=
  if s.closed then
    { lockAcquired := false, ranInternalBatch := false, dispatched := 0, checks := 0,
      completed := 0, epilogueRuns := 0,
      result := BatchResult.raised "Cannot do an operation on a closed statement"
        s.parameterList.length }
  else if s.parameterList.length = 0 then
    { lockAcquired := false, ranInternalBatch := false, dispatched := 0, checks := 0,
      completed := 0, epilogueRuns := 0, result := BatchResult.counts [] }
  else
    match executeInternalBatch t s.queryTimeout s.continueBatchOnError with
    | (r, none) =>
      { lockAcquired := true, ranInternalBatch := true, dispatched := r.dispatched,
        checks := r.checks, completed := r.succeeded, epilogueRuns := 0,
        result := BatchResult.counts t.largeUpdateCounts }
    | (r, some m) =>
      { lockAcquired := true, ranInternalBatch := true, dispatched := r.dispatched,
        checks := r.checks, completed := r.succeeded, epilogueRuns := 1,
        result := BatchResult.raised m s.parameterList.length }

/-- `loadParametersData()`: attempts an ephemeral `ServerSidePreparedStatement`
(the oracle `eph` gives its result: result-set and parameter descriptors on
success, the thrown `SQLException` message on failure); on failure the catch
block installs `SimpleParameterMetaData(paramCount)` instead.  The second
component counts ephemeral-prepare attempts (one either way). -/
def loadParametersData (eph : Except String (Nat × Nat)) (s : Stmt) : Stmt × Nat :=
  match eph with
  | Except.ok info =>
    ({ s with resultSetMetaData := some info.1,
              parameterMetaData := some (ParamMeta.fromServer info.2) }, 1)
  | Except.error _ =>
    ({ s with parameterMetaData := some (ParamMeta.simple s.prepareResult.paramCount) }, 1)

/-- `getParameterMetaData()`: `checkClose`; then resolves metadata through
`loadParametersData` only when `parameterMetaData` is still unset. -/
def getParameterMetaData (eph : Except String (Nat × Nat)) (s : Stmt) :
    Except String (Stmt × Nat) :=
  if s.closed then
    Except.error "Cannot do an operation on a closed statement"
  else if s.parameterMetaData.isSome then
    Except.ok (s, 0)
  else
    Except.ok (loadParametersData eph s)

/-- Concrete statement fixture for witnesses and counterexamples. -/
def sampleStmt (paramCount : Nat) (params : List (Option Nat))
    (plist : List (List (Option Nat))) (qt : Nat) (cont : Bool) : Stmt :=
  { sqlQuery := "INSERT INTO t VALUES (?)"
    prepareResult := { id := 0, paramCount := paramCount }
    parameters := params
    parameterList := plist
    hasLongData := false
    closed := false
    queryTimeout := qt
    continueBatchOnError := cont
    resultSetMetaData := none
    parameterMetaData := none }

/-- Concrete Transport fixture for witnesses and counterexamples. -/
def sampleTransport (outcomes : List (Option String)) (intr : Bool) : Transport :=
  { rewriteHandled := false, interrupted := intr, outcomes := outcomes,
    updateCounts := [1], largeUpdateCounts := [1] }

/-- Reading every position of a list through `getElem?` rebuilds the list. -/
theorem range_map_get (l : List (Option Nat)) :
    (List.range l.length).map (fun i => (l[i]?).getD none) = l := by
  induction l with
  | nil => rfl
  | cons a tl ih =>
    rw [List.length_cons, List.range_succ_eq_map, List.map_cons, List.map_map]
    have hf : ((fun i => ((a :: tl)[i]?).getD none) ∘ Nat.succ)
        = fun i => (tl[i]?).getD none := by
      funext i
      simp [Function.comp]
    rw [hf]
    simp only [List.getElem?_cons_zero, Option.getD_some]
    exact congrArg (a :: ·) ih

/-- With continue-on-error and no interrupt, the fallback loop finishes
(nothing is thrown out of it), dispatches every entry, and leaves the
sentinel exception holding the message of the last failing entry. -/
theorem seqLoop_continue (cc : Bool) (l : List (Option String)) :
    ∀ cap, (seqLoop cc false true cap l).aborted = none ∧
      (seqLoop cc false true cap l).dispatched = l.length ∧
      (seqLoop cc false true cap l).captured = (lastFailureMsg l).getD cap := by
  induction l with
  | nil => intro cap; simp [seqLoop, lastFailureMsg]
  | cons o rest ih =>
    intro cap
    cases o with
    | none =>
      have h := ih cap
      simp [seqLoop, lastFailureMsg, h.1, h.2.1, h.2.2]
    | some msg =>
      have h := ih msg
      simp [seqLoop, lastFailureMsg, h.1, h.2.1, h.2.2]

/-- Without continue-on-error and without interrupt, the fallback loop stops
at the first failing entry: that entry is dispatched and its failure is
rethrown; the entries before it all succeeded, and nothing after it is
dispatched. -/
theorem seqLoop_firstFailure (cc : Bool) :
    ∀ (k : Nat) (l : List (Option String)) (m cap : String),
      l[k]? = some (some m) → (∀ p, p < k → l[p]? = some none) →
      (seqLoop cc false false cap l).dispatched = k + 1 ∧
      (seqLoop cc false false cap l).succeeded = k ∧
      (seqLoop cc false false cap l).aborted = some m ∧
      (seqLoop cc false false cap l).captured = cap := by
  intro k
  induction k with
  | zero =>
    intro l m cap hk hpre
    cases l with
    | nil => simp at hk
    | cons o rest =>
      simp only [List.getElem?_cons_zero, Option.some.injEq] at hk
      subst hk
      simp [seqLoop]
  | succ k ih =>
    intro l m cap hk hpre
    cases l with
    | nil => simp at hk
    | cons o rest =>
      have h0 : o = none := by
        have := hpre 0 (Nat.succ_pos k)
        simpa using this
      subst h0
      have hk2 : rest[k]? = some (some m) := by simpa using hk
      have hpre2 : ∀ p, p < k → rest[p]? = some none := by
        intro p hp
        have := hpre (p + 1) (Nat.succ_lt_succ hp)
        simpa using this
      have h := ih rest m cap hk2 hpre2
      simp [seqLoop, h.1, h.2.1, h.2.2.1, h.2.2.2]

/-- The `queryTimeout` = 0 branch of the fallback contains no
`stopIfInterrupted` call: no cancellation check ever runs. -/
theorem seqLoop_checks_zero (intr cont : Bool) (l : List (Option String)) :
    ∀ cap, (seqLoop false intr cont cap l).checks = 0 := by
  induction l with
  | nil => intro cap; simp [seqLoop]
  | cons o rest ih =>
    intro cap
    cases o with
    | none => simp [seqLoop, ih cap]
    | some msg => cases cont <;> simp [seqLoop, ih msg, ih cap]

/-- In the `queryTimeout > 0` branch with the interrupt flag set, the
cancellation check raises before the first dispatch: no entry is dispatched. -/
theorem seqLoop_interrupted (cont : Bool) (l : List (Option String)) (cap : String) :
    (seqLoop true true cont cap l).dispatched = 0 := by
  cases l with
  | nil => simp [seqLoop]
  | cons o rest => simp [seqLoop]

/-- In the `queryTimeout > 0` branch with no interrupt pending, exactly one
cancellation check precedes each dispatched entry. -/
theorem seqLoop_checks_eq_dispatched (cont : Bool) (l : List (Option String)) :
    ∀ cap, (seqLoop true false cont cap l).checks = (seqLoop true false cont cap l).dispatched := by
  induction l with
  | nil => intro cap; simp [seqLoop]
  | cons o rest ih =>
    intro cap
    cases o with
    | none => simp [seqLoop, ih cap]
    | some msg => cases cont <;> simp [seqLoop, ih msg, ih cap]

/-- The last failing entry's message is the message of one of the failing
entries. -/
theorem lastFailureMsg_mem : ∀ {l : List (Option String)} {m : String},
    lastFailureMsg l = some m → some m ∈ l := by
  intro l
  induction l with
  | nil => intro m h; simp [lastFailureMsg] at h
  | cons o rest ih =>
    intro m h
    cases o with
    | none =>
      simp only [lastFailureMsg] at h
      exact List.mem_cons_of_mem _ (ih h)
    | some x =>
      simp only [lastFailureMsg, Option.some.injEq] at h
      cases hr : lastFailureMsg rest with
      | none =>
        rw [hr] at h
        simp at h
        subst h
        exact List.mem_cons_self _ _
      | some y =>
        rw [hr] at h
        simp at h
        subst h
        exact List.mem_cons_of_mem _ (ih hr)

/-- A list with a failing entry has a last failing entry. -/
theorem lastFailureMsg_isSome_of_fail : ∀ {l : List (Option String)} {j : Nat} {m : String},
    l[j]? = some (some m) → ∃ x, lastFailureMsg l = some x := by
  intro l
  induction l with
  | nil => intro j m h; simp at h
  | cons o rest ih =>
    intro j m h
    cases o with
    | none =>
      cases j with
      | zero => simp at h
      | succ j =>
        simp only [List.getElem?_cons_succ] at h
        obtain ⟨x, hx⟩ := ih h
        exact ⟨x, by simp [lastFailureMsg, hx]⟩
    | some x2 =>
      exact ⟨(lastFailureMsg rest).getD x2, rfl⟩

/-- Both components of `executeInternalBatch`'s return come from the same run
of the fallback loop whenever the rewritten-batch path did not handle the
batch. -/
theorem executeInternalBatch_fst (t : Transport) (qt : Nat) (cont : Bool)
    (hrw : t.rewriteHandled = false) :
    (executeInternalBatch t qt cont).1 =
      seqLoop (decide (0 < qt)) t.interrupted cont "" t.outcomes := by
  unfold executeInternalBatch
  rw [hrw]
  simp only [Bool.false_eq_true, if_false]
  cases h : (seqLoop (decide (0 < qt)) t.interrupted cont "" t.outcomes).aborted <;>
    simp [h]

/-- C2: the claim states that `clearBatch` empties the batch list and resets
the long-data flag but leaves the ParameterStore untouched, so that the
parameter-slot array keeps length `paramCount` after every operation.  The
code violates this: `clearBatch` also calls `parameters.clear()`, which
empties the vector, so after `clearBatch` the slot array has length 0 and
the length invariant is broken whenever `paramCount ≥ 1`. -/
theorem clearBatch_clearsParameterStore (s : Stmt)
    (hn : 1 ≤ s.prepareResult.paramCount)
    (hlen : s.parameters.length = s.prepareResult.paramCount) :
    (clearBatch s).parameterList = [] ∧
    (clearBatch s).hasLongData = false ∧
    (clearBatch s).prepareResult.paramCount = s.prepareResult.paramCount ∧
    (clearBatch s).parameters.length = 0 ∧
    (clearBatch s).parameters.length ≠ (clearBatch s).prepareResult.paramCount := by
  refine ⟨rfl, rfl, rfl, rfl, ?_⟩
  show (0 : Nat) ≠ s.prepareResult.paramCount
  omega

/-- C2 witness: a statement with two bound slots, evaluated through
`clearBatch_clearsParameterStore`. -/
theorem clearBatch_clearsParameterStore_witness :
    (clearBatch (sampleStmt 2 [some 10, some 20] [[some 10, some 20]] 0 false)).parameters.length
      = 0 ∧
    (sampleStmt 2 [some 10, some 20] [[some 10, some 20]] 0 false).prepareResult.paramCount
      = 2 :=
  ⟨(clearBatch_clearsParameterStore
      (sampleStmt 2 [some 10, some 20] [[some 10, some 20]] 0 false)
      (by decide) (by decide)).2.2.2.1,
    by decide⟩

/-- C10: after `clearBatch` has run, `setParameter` with any index in
`[1, paramCount]` still passes the in-range check (the check reads
`prepareResult->getParamCount()`, which `clearBatch` does not change), yet
the slot array now has length 0, so the write at `parameters[index-1]` is
outside the array's bounds: the in-range precondition alone does not make
the access safe after `clearBatch`. -/
theorem setParameterCheck_unsound_afterClearBatch (s : Stmt) (idx : Nat)
    (h1 : 1 ≤ idx) (h2 : idx ≤ s.prepareResult.paramCount)
    (hn : 1 ≤ s.prepareResult.paramCount) :
    setParameterCheck (clearBatch s) idx = true ∧
    (clearBatch s).parameters.length = 0 ∧
    (clearBatch s).parameters.length ≠ s.prepareResult.paramCount ∧
    ¬ (idx - 1 < (clearBatch s).parameters.length) := by
  refine ⟨?_, rfl, ?_, ?_⟩
  · show (decide (1 ≤ idx) && decide (idx < s.prepareResult.paramCount + 1)) = true
    rw [Bool.and_eq_true, decide_eq_true_eq, decide_eq_true_eq]
    omega
  · show (0 : Nat) ≠ s.prepareResult.paramCount
    omega
  · show ¬ (idx - 1 < 0)
    omega

/-- C10 witness: index 1 on a one-parameter statement after `clearBatch`. -/
theorem setParameterCheck_unsound_afterClearBatch_witness :
    setParameterCheck (clearBatch (sampleStmt 1 [some 7] [] 0 false)) 1 = true ∧
    (clearBatch (sampleStmt 1 [some 7] [] 0 false)).parameters.length = 0 :=
  ⟨(setParameterCheck_unsound_afterClearBatch (sampleStmt 1 [some 7] [] 0 false) 1
      (by decide) (by decide) (by decide)).1,
    (setParameterCheck_unsound_afterClearBatch (sampleStmt 1 [some 7] [] 0 false) 1
      (by decide) (by decide) (by decide)).2.1⟩

/-- C4: the claim states that `clone` shares the immutable PrepareResult and
owns a ParameterStore sized to the same parameter count with every slot
unbound.  The code shares the PrepareResult (so both handles report the same
parameter count) and gives the clone an independent store, but it only calls
`parameters.reserve(paramCount)` on the clone — `reserve` does not change
the vector's size, so the clone's slot array has length 0 instead of
`paramCount`, and the first `setParameter` on the clone passes the range
check while indexing past the end of the empty array. -/
theorem clone_parameterStoreNotSized (s : Stmt)
    (hn : 1 ≤ s.prepareResult.paramCount) :
    (clone s).prepareResult = s.prepareResult ∧
    getParameterCount (clone s) = getParameterCount s ∧
    (clone s).parameters = [] ∧
    (clone s).parameters.length ≠ s.prepareResult.paramCount ∧
    setParameterCheck (clone s) 1 = true ∧
    ¬ (1 - 1 < (clone s).parameters.length) := by
  refine ⟨rfl, rfl, rfl, ?_, ?_, ?_⟩
  · show (0 : Nat) ≠ s.prepareResult.paramCount
    omega
  · show (decide (1 ≤ 1) && decide (1 < s.prepareResult.paramCount + 1)) = true
    rw [Bool.and_eq_true, decide_eq_true_eq, decide_eq_true_eq]
    omega
  · show ¬ (1 - 1 < 0)
    omega

/-- C4 witness: cloning a two-parameter statement with bound slots. -/
theorem clone_parameterStoreNotSized_witness :
    (clone (sampleStmt 2 [some 1, some 2] [] 0 false)).parameters = [] ∧
    getParameterCount (clone (sampleStmt 2 [some 1, some 2] [] 0 false))
      = getParameterCount (sampleStmt 2 [some 1, some 2] [] 0 false) :=
  ⟨(clone_parameterStoreNotSized (sampleStmt 2 [some 1, some 2] [] 0 false)
      (by decide)).2.2.1,
    (clone_parameterStoreNotSized (sampleStmt 2 [some 1, some 2] [] 0 false)
      (by decide)).2.1⟩

/-- C8: on an open statement whose batch queue is empty, `executeBatch`
returns the empty update-count sequence with no error raised, without
acquiring the channel lock and without any Transport interaction. -/
theorem executeBatch_emptyQueue_noop (s : Stmt) (t : Transport)
    (hc : s.closed = false) (he : s.parameterList = []) :
    executeBatch s t =
      { lockAcquired := false, ranInternalBatch := false, dispatched := 0,
        checks := 0, completed := 0, epilogueRuns := 0,
        result := BatchResult.counts [] } := by
  simp [executeBatch, hc, he]

/-- C8 witness: an open two-parameter statement with an empty queue against a
live Transport. -/
theorem executeBatch_emptyQueue_noop_witness :
    executeBatch (sampleStmt 2 [none, none] [] 0 false)
        (sampleTransport [some "never sent"] false) =
      { lockAcquired := false, ranInternalBatch := false, dispatched := 0,
        checks := 0, completed := 0, epilogueRuns := 0,
        result := BatchResult.counts [] } :=
  executeBatch_emptyQueue_noop (sampleStmt 2 [none, none] [] 0 false)
    (sampleTransport [some "never sent"] false) rfl rfl

/-- C5: `addBatch` is atomic on a statement whose slot array has its nominal
length.  If some slot is unbound, the error is raised and the batch queue is
unchanged; if every slot is bound, the queue grows by exactly one entry,
that entry is a snapshot equal to the ParameterStore's values at call time,
and a later successful `setParameter` mutation leaves the queued entries
untouched. -/
theorem addBatch_atomic (s : Stmt)
    (hlen : s.parameters.length = s.prepareResult.paramCount) :
    (s.parameters.all (fun h => h.isSome) = false →
      (addBatch s).1.isSome = true ∧ (addBatch s).2 = s) ∧
    (s.parameters.all (fun h => h.isSome) = true →
      (addBatch s).1 = none ∧
      (addBatch s).2.parameterList = s.parameterList ++ [s.parameters] ∧
      (addBatch s).2.parameterList.getLast? = some s.parameters ∧
      (∀ idx v s2, setParameter (addBatch s).2 idx v = Except.ok s2 →
        s2.parameterList = (addBatch s).2.parameterList)) := by
  have hh : (List.range s.prepareResult.paramCount).map (fun i => (s.parameters[i]?).getD none)
      = s.parameters := by
    rw [← hlen]
    exact range_map_get s.parameters
  constructor
  · intro hall
    simp only [addBatch, hh, hall]
    simp
  · intro hall
    have h1 : (addBatch s).1 = none := by
      simp [addBatch, hh, hall]
    have h2 : (addBatch s).2.parameterList = s.parameterList ++ [s.parameters] := by
      simp [addBatch, hh, hall]
    refine ⟨h1, h2, ?_, ?_⟩
    · rw [h2]
      exact List.getLast?_concat _
    · intro idx v s2 hset
      simp only [setParameter] at hset
      split at hset
      · cases hset
        rfl
      · cases hset

/-- C5 witness: a fully-bound two-parameter statement, through
`addBatch_atomic`. -/
theorem addBatch_atomic_witness :
    (addBatch (sampleStmt 2 [some 10, some 20] [] 0 false)).1 = none ∧
    (addBatch (sampleStmt 2 [some 10, some 20] [] 0 false)).2.parameterList
      = [[some 10, some 20]] :=
  ⟨((addBatch_atomic (sampleStmt 2 [some 10, some 20] [] 0 false) (by decide)).2
      (by decide)).1,
    by
      have h := ((addBatch_atomic (sampleStmt 2 [some 10, some 20] [] 0 false)
        (by decide)).2 (by decide)).2.1
      simpa using h⟩

/-- C9: metadata resolution never propagates the ephemeral-prepare failure —
on a failing ephemeral prepare it degrades to `SimpleParameterMetaData`
reporting only the parameter count — and it is memoized: once
`parameterMetaData` is resolved (really or synthetically), a second
`getParameterMetaData` performs zero further ephemeral-prepare attempts, so
two consecutive calls on any open handle trigger at most one attempt. -/
theorem getParameterMetaData_memoized (s : Stmt) (e1 e2 : Except String (Nat × Nat))
    (hc : s.closed = false) :
    (s.parameterMetaData = none →
      getParameterMetaData e1 s = Except.ok (loadParametersData e1 s) ∧
      (loadParametersData e1 s).2 = 1 ∧
      getParameterMetaData e2 (loadParametersData e1 s).1
        = Except.ok ((loadParametersData e1 s).1, 0)) ∧
    (s.parameterMetaData.isSome = true →
      getParameterMetaData e1 s = Except.ok (s, 0) ∧
      getParameterMetaData e2 s = Except.ok (s, 0)) ∧
    (∀ msg, e1 = Except.error msg →
      (loadParametersData e1 s).1.parameterMetaData
        = some (ParamMeta.simple s.prepareResult.paramCount)) := by
  refine ⟨?_, ?_, ?_⟩
  · intro h0
    cases e1 with
    | ok info => simp [getParameterMetaData, loadParametersData, hc, h0]
    | error msg => simp [getParameterMetaData, loadParametersData, hc, h0]
  · intro hsome
    simp [getParameterMetaData, hc, hsome]
  · intro msg hmsg
    subst hmsg
    simp [loadParametersData]

/-- C9 witness: a fresh three-parameter handle whose ephemeral prepare fails;
the first call resolves synthetically with one attempt and the second call
performs none. -/
theorem getParameterMetaData_memoized_witness :
    (sampleStmt 3 [] [] 0 false).parameterMetaData = none ∧
    getParameterMetaData (Except.error "ephemeral prepare failed") (sampleStmt 3 [] [] 0 false)
      = Except.ok (loadParametersData (Except.error "ephemeral prepare failed")
          (sampleStmt 3 [] [] 0 false)) ∧
    (loadParametersData (Except.error "ephemeral prepare failed")
        (sampleStmt 3 [] [] 0 false)).2 = 1 ∧
    (loadParametersData (Except.error "ephemeral prepare failed")
        (sampleStmt 3 [] [] 0 false)).1.parameterMetaData = some (ParamMeta.simple 3) :=
  ⟨rfl,
    ((getParameterMetaData_memoized (sampleStmt 3 [] [] 0 false)
        (Except.error "ephemeral prepare failed") (Except.ok (5, 6)) rfl).1 rfl).1,
    ((getParameterMetaData_memoized (sampleStmt 3 [] [] 0 false)
        (Except.error "ephemeral prepare failed") (Except.ok (5, 6)) rfl).1 rfl).2.1,
    (getParameterMetaData_memoized (sampleStmt 3 [] [] 0 false)
        (Except.error "ephemeral prepare failed") (Except.ok (5, 6)) rfl).2.2
      "ephemeral prepare failed" rfl⟩

/-- C3: the claim states that `executeBatch` and `executeLargeBatch` run the
batch epilogue hook on every exit path, including the success path.  The
code violates this on the success path: the `return` statement sits inside
the try block, so the `executeBatchEpilogue()` call placed after the
try/catch is unreachable and the epilogue only ever runs in the catch block.
On a non-empty batch whose internal execution succeeds, zero epilogue runs
are performed by either function. -/
theorem executeBatch_epilogueSkippedOnSuccess (s : Stmt) (t : Transport)
    (hc : s.closed = false)
    (hne : s.parameterList ≠ [])
    (hok : (executeInternalBatch t s.queryTimeout s.continueBatchOnError).2 = none) :
    (executeBatch s t).result = BatchResult.counts t.updateCounts ∧
    (executeBatch s t).epilogueRuns = 0 ∧
    (executeLargeBatch s t).result = BatchResult.counts t.largeUpdateCounts ∧
    (executeLargeBatch s t).epilogueRuns = 0 := by
  have hsz : ¬ s.parameterList.length = 0 := by
    intro h
    exact hne (List.length_eq_zero.mp h)
  rcases hEq : executeInternalBatch t s.queryTimeout s.continueBatchOnError with ⟨r, th⟩
  rw [hEq] at hok
  simp only at hok
  subst hok
  refine ⟨?_, ?_, ?_, ?_⟩ <;> simp [executeBatch, executeLargeBatch, hc, hsz, hEq]

/-- C3 witness: a one-entry batch whose single Transport call succeeds. -/
theorem executeBatch_epilogueSkippedOnSuccess_witness :
    (sampleStmt 1 [some 1] [[some 1]] 0 false).parameterList ≠ [] ∧
    (executeBatch (sampleStmt 1 [some 1] [[some 1]] 0 false)
      (sampleTransport [none] false)).epilogueRuns = 0 :=
  ⟨by decide,
    (executeBatch_epilogueSkippedOnSuccess (sampleStmt 1 [some 1] [[some 1]] 0 false)
      (sampleTransport [none] false) rfl (by decide) (by decide)).2.1⟩

/-- C6: with continue-on-error disabled and no interrupt pending, if the
sequential fallback's first failing entry sits at 0-based position `k` (all
earlier entries succeed), then `executeBatch` raises that entry's failure
annotated with the batch size, exactly `k` entries completed (one fewer than
the 1-based failing position), the failing entry is the last one dispatched,
and no later entry is ever dispatched to the Transport. -/
theorem executeBatch_stopsAtFirstFailure (s : Stmt) (t : Transport) (k : Nat) (m : String)
    (hc : s.closed = false)
    (hcont : s.continueBatchOnError = false)
    (hrw : t.rewriteHandled = false)
    (hint : t.interrupted = false)
    (hlen : t.outcomes.length = s.parameterList.length)
    (hk : t.outcomes[k]? = some (some m))
    (hpre : ∀ p, p < k → t.outcomes[p]? = some none) :
    (executeBatch s t).result = BatchResult.raised m s.parameterList.length ∧
    (executeBatch s t).completed = k ∧
    (executeBatch s t).dispatched = k + 1 ∧
    (executeBatch s t).epilogueRuns = 1 := by
  have hkl : k < t.outcomes.length := by
    by_contra hik
    rw [List.getElem?_eq_none (Nat.le_of_not_lt hik)] at hk
    cases hk
  have hsz : ¬ s.parameterList.length = 0 := by omega
  obtain ⟨hd, hsuc, hab, hcap⟩ :=
    seqLoop_firstFailure (decide (0 < s.queryTimeout)) k t.outcomes m "" hk hpre
  have hEIB : executeInternalBatch t s.queryTimeout s.continueBatchOnError
      = (seqLoop (decide (0 < s.queryTimeout)) false false "" t.outcomes, some m) := by
    unfold executeInternalBatch
    rw [hrw, hint, hcont]
    simp [hab]
  refine ⟨?_, ?_, ?_, ?_⟩ <;> simp [executeBatch, hc, hsz, hEIB, hd, hsuc]

/-- C6 witness: a three-entry batch whose second entry fails; one entry
completed, two dispatched, the third never sent. -/
theorem executeBatch_stopsAtFirstFailure_witness :
    (executeBatch (sampleStmt 1 [some 1] [[some 1], [some 2], [some 3]] 0 false)
        (sampleTransport [none, some "duplicate key", none] false)).result
      = BatchResult.raised "duplicate key" 3 ∧
    (executeBatch (sampleStmt 1 [some 1] [[some 1], [some 2], [some 3]] 0 false)
        (sampleTransport [none, some "duplicate key", none] false)).dispatched = 2 := by
  have h := executeBatch_stopsAtFirstFailure
    (sampleStmt 1 [some 1] [[some 1], [some 2], [some 3]] 0 false)
    (sampleTransport [none, some "duplicate key", none] false) 1 "duplicate key"
    rfl rfl rfl rfl (by decide) (by decide)
    (by
      intro p hp
      have hp0 : p = 0 := by omega
      subst hp0
      rfl)
  exact ⟨h.1, h.2.2.1⟩

/-- C1 counterexample: a two-entry batch under continue-on-error whose entries
fail with messages "first failure" then "second failure".  The claim says the
aggregated error's detail equals the first captured failure, but the catch
block overwrites the sentinel exception on every failure (`exception = e`),
so `executeBatch` raises the failure of the LAST failing entry. -/
theorem executeBatch_continueOnError_counterexample :
    (executeBatch (sampleStmt 1 [some 1] [[some 1], [some 2]] 0 true)
        (sampleTransport [some "first failure", some "second failure"] false)).result
      = BatchResult.raised "second failure" 2 ∧
    (sampleTransport [some "first failure", some "second failure"] false).outcomes[0]?
      = some (some "first failure") ∧
    ("second failure" : String) ≠ "first failure" := by
  decide

/-- C1 amended: with continue-on-error enabled and failure messages non-empty
(the code uses an empty message as its no-failure sentinel), a batch whose
sequential fallback fails at positions `i` and `j` (`i < j`) dispatches every
queued entry and raises exactly one aggregated error after the loop, whose
detail equals the LAST captured failure — the message of the last failing
entry — annotated with the batch size. -/
theorem executeBatch_continueOnError_raisesLastFailure
    (s : Stmt) (t : Transport) (i j : Nat) (mi mj : String)
    (hc : s.closed = false)
    (hcont : s.continueBatchOnError = true)
    (hrw : t.rewriteHandled = false)
    (hint : t.interrupted = false)
    (hlen : t.outcomes.length = s.parameterList.length)
    (_hij : i < j)
    (_hi : t.outcomes[i]? = some (some mi))
    (hj : t.outcomes[j]? = some (some mj))
    (hne : ∀ m, some m ∈ t.outcomes → m ≠ "") :
    (executeBatch s t).dispatched = s.parameterList.length ∧
    (executeBatch s t).epilogueRuns = 1 ∧
    (executeBatch s t).result
      = BatchResult.raised ((lastFailureMsg t.outcomes).getD "") s.parameterList.length ∧
    some ((lastFailureMsg t.outcomes).getD "") ∈ t.outcomes := by
  obtain ⟨mL, hmL⟩ := lastFailureMsg_isSome_of_fail hj
  have hmem : some mL ∈ t.outcomes := lastFailureMsg_mem hmL
  have hmLne : mL ≠ "" := hne mL hmem
  have hjl : j < t.outcomes.length := by
    by_contra hik
    rw [List.getElem?_eq_none (Nat.le_of_not_lt hik)] at hj
    cases hj
  have hsz : ¬ s.parameterList.length = 0 := by omega
  obtain ⟨ha, hd, hcap⟩ := seqLoop_continue (decide (0 < s.queryTimeout)) t.outcomes ""
  have hcap2 : (seqLoop (decide (0 < s.queryTimeout)) false true "" t.outcomes).captured
      = mL := by
    rw [hcap, hmL]
    rfl
  have hEIB : executeInternalBatch t s.queryTimeout s.continueBatchOnError
      = (seqLoop (decide (0 < s.queryTimeout)) false true "" t.outcomes, some mL) := by
    unfold executeInternalBatch
    rw [hrw, hint, hcont]
    simp [ha, hcap2, hmLne]
  have hgd : (lastFailureMsg t.outcomes).getD "" = mL := by
    rw [hmL]
    rfl
  refine ⟨?_, ?_, ?_, ?_⟩ <;>
    simp [executeBatch, hc, hsz, hEIB, hd, hlen, hgd, hmem]

/-- C1 amended witness: failures at positions 0 and 2 of a three-entry batch;
all three entries are dispatched and the raised detail is the failure at
position 2. -/
theorem executeBatch_continueOnError_raisesLastFailure_witness :
    (executeBatch (sampleStmt 1 [some 1] [[some 1], [some 2], [some 3]] 0 true)
        (sampleTransport [some "first failure", none, some "third failure"] false)).result
      = BatchResult.raised "third failure" 3 ∧
    (executeBatch (sampleStmt 1 [some 1] [[some 1], [some 2], [some 3]] 0 true)
        (sampleTransport [some "first failure", none, some "third failure"] false)).dispatched
      = 3 := by
  have h := executeBatch_continueOnError_raisesLastFailure
    (sampleStmt 1 [some 1] [[some 1], [some 2], [some 3]] 0 true)
    (sampleTransport [some "first failure", none, some "third failure"] false)
    0 2 "first failure" "third failure"
    rfl rfl rfl rfl (by decide) (by decide) (by decide) (by decide)
    (by
      intro m hm
      simp only [sampleTransport] at hm
      simp at hm
      rcases hm with rfl | rfl <;> decide)
  exact ⟨h.2.2.1, h.1⟩

/-- C7 counterexample: with `queryTimeout` = 0 and the interrupt flag already
signaled, a two-entry sequential fallback performs zero cancellation checks
and still dispatches both entries — the claim's "regardless of the
configured statement timeout value" fails, because `stopIfInterrupted()` is
only called in the `queryTimeout > 0` branch of `executeInternalBatch`. -/
theorem seqFallback_noCheckWithoutTimeout_counterexample :
    (executeInternalBatch (sampleTransport [none, none] true) 0 false).1.checks = 0 ∧
    (executeInternalBatch (sampleTransport [none, none] true) 0 false).1.dispatched = 2 := by
  decide

/-- C7 amended: in the sequential batch fallback the cooperative cancellation
check is gated on the statement timeout.  With `queryTimeout` = 0 no check
is ever performed; with a positive timeout a signaled interrupt aborts the
loop before any further dispatch, and otherwise exactly one check precedes
each dispatched entry. -/
theorem executeInternalBatch_checkGatedByTimeout (t : Transport) (qt : Nat) (cont : Bool)
    (hrw : t.rewriteHandled = false) :
    (qt = 0 → (executeInternalBatch t qt cont).1.checks = 0) ∧
    (0 < qt → t.interrupted = true → (executeInternalBatch t qt cont).1.dispatched = 0) ∧
    (0 < qt → t.interrupted = false →
      (executeInternalBatch t qt cont).1.checks
        = (executeInternalBatch t qt cont).1.dispatched) := by
  rw [executeInternalBatch_fst t qt cont hrw]
  refine ⟨?_, ?_, ?_⟩
  · intro h
    subst h
    exact seqLoop_checks_zero t.interrupted cont t.outcomes ""
  · intro hq hi
    rw [hi, decide_eq_true hq]
    exact seqLoop_interrupted cont t.outcomes ""
  · intro hq hi
    rw [hi, decide_eq_true hq]
    exact seqLoop_checks_eq_dispatched cont t.outcomes ""

/-- C7 amended witness: with a positive timeout and the interrupt signaled,
nothing is dispatched. -/
theorem executeInternalBatch_checkGatedByTimeout_witness :
    (0 : Nat) < 5 ∧
    (executeInternalBatch (sampleTransport [none, none] true) 5 false).1.dispatched = 0 :=
  ⟨by decide,
    (executeInternalBatch_checkGatedByTimeout (sampleTransport [none, none] true) 5 false
      rfl).2.1 (by decide) rfl⟩

end CSPS
